import Mathlib

/-!
Shallow embedding of the DOD-SBIR-Scraper topic resolution and batched
artifact retrieval subsystem.

Sources embedded here:
- `src/app/api/v1/schemas.py` (Topic, SearchRequest, DownloadRequest with
  their pydantic field constraints),
- `src/app/core/clients/dod_sbir_client.py` (`DoDSBIRClient._request`
  error classification, `search_topics`, `download_pdf_content`,
  `DoDSBIRAPIError`),
- `src/app/api/v1/endpoints/topics.py` (`download_pdfs_endpoint`:
  code resolution, single-item vs archive aggregation, error policy),
- `src/main.py` (`download_selected_pdfs`, the form-post transport).

HTTP calls are modelled by explicit oracles (the outcome a call would
have); pydantic validation is modelled by explicit smart constructors
returning `Except`; raised exceptions become `Except.error` values.
-/

namespace DodSbir

/-- Raw byte payloads (PDF contents) as lists of byte values. -/
abbrev Bytes := List Nat

/-! ## Schemas (`src/app/api/v1/schemas.py`) -/

/-- The `Topic` model (schemas.py lines 5-24): six required string fields,
optional metadata.  `releaseNumber` is already normalized to a string
(see `convert_release_number_to_string`). -/
structure Topic where
  topicCode : String
  topicTitle : String
  component : String
  topicStatus : String
  solicitationTitle : String
  topicId : String
  programYear : Option Int
  releaseNumber : Option String
  technologyArea : Option String
  keywords : List String
deriving Repr, DecidableEq

/-- The `SearchRequest` model (schemas.py lines 33-38).  Construction goes
through `mkSearchRequest`, which enforces the pydantic field bounds. -/
structure SearchRequest where
  term : Option String
  page : Int
  page_size : Int
  components : Option (List String)
  program_years : Option (List Int)
deriving Repr, DecidableEq

/-- Pydantic validation performed when a `SearchRequest` is constructed:
`page : int = Field(0, ge=0)`, `page_size : int = Field(10, ge=1, le=100)`.
A violated bound raises a `ValidationError`, modelled as `.error`. -/
def mkSearchRequest (term : Option String) (page : Int) (page_size : Int)
    (components : Option (List String)) (program_years : Option (List Int)) :
    Except String SearchRequest :=
  if page < 0 then
    .error "ValidationError: page must be greater than or equal to 0"
  else if page_size < 1 then
    .error "ValidationError: page_size must be greater than or equal to 1"
  else if 100 < page_size then
    .error "ValidationError: page_size must be less than or equal to 100"
  else
    .ok ⟨term, page, page_size, components, program_years⟩

/-- The `DownloadRequest` model (schemas.py lines 42-46). -/
structure DownloadRequest where
  selected_topics : List String
  search_term : Option String
  page : Int
  page_size : Int
deriving Repr, DecidableEq

/-- The pydantic constraints on `DownloadRequest`: `selected_topics` has
`min_length=1`, `page` has `ge=0`, `page_size` has `ge=1, le=100`. -/
def DownloadRequest.valid (r : DownloadRequest) : Prop :=
  r.selected_topics ≠ [] ∧ 0 ≤ r.page ∧ 1 ≤ r.page_size ∧ r.page_size ≤ 100

/-! ## Gateway error classification (`src/app/core/clients/dod_sbir_client.py`) -/

/-- The `DoDSBIRAPIError` exception (dod_sbir_client.py lines 85-88): message plus an
optional upstream status code. -/
structure DoDSBIRAPIError where
  message : String
  status_code : Option Int
deriving Repr, DecidableEq

/-- The httpx exceptions `_request` can observe: a connect/read timeout
(`httpx.TimeoutException`), another transport-level failure
(`httpx.RequestError`, e.g. DNS failure or connection reset), or a
non-2xx response surfaced by `raise_for_status`
(`httpx.HTTPStatusError`, carrying the request url, status and body). -/
inductive HttpxException where
  | timeoutExc (msg : String)
  | transportExc (msg : String)
  | statusExc (url : String) (status : Int) (body : String)
deriving Repr, DecidableEq

/-- Python `isinstance(e, httpx.TimeoutException)`. -/
def HttpxException.isTimeoutException : HttpxException → Bool
  | .timeoutExc _ => true
  | _ => false

/-- Python `isinstance(e, httpx.RequestError)`.  In httpx the exception classes
satisfy `TimeoutException <: TransportError <: RequestError`, so a
timeout is also a `RequestError`; only `HTTPStatusError` is not. -/
def HttpxException.isRequestError : HttpxException → Bool
  | .timeoutExc _ => true
  | .transportExc _ => true
  | .statusExc _ _ _ => false

/-- The `except` chain of `DoDSBIRClient._request` (lines 30-41), in
source order: timeout first, then other transport errors, then status
errors.  Each branch builds the corresponding `DoDSBIRAPIError`; only
the status branch records a status code, and its message embeds the
first 200 characters of the response body (`e.response.text[:200]`). -/
def handleRequestException (url : String) (e : HttpxException) : DoDSBIRAPIError :=
  match e with
  | .timeoutExc _ =>
      ⟨"Request to " ++ url ++ " timed out.", none⟩
  | .transportExc m =>
      ⟨"Network error requesting " ++ url ++ ": " ++ m, none⟩
  | .statusExc u s body =>
      ⟨"API request to " ++ u ++ " failed with status " ++ toString s ++
        ". Response: " ++ body.take 200 ++ "...", some s⟩

/-- What the underlying `httpx` call did: raised before a response was
available (timeout or other transport failure), or produced a response
with a status and body. -/
inductive HttpAttempt where
  | timedOut (msg : String)
  | transportFailed (msg : String)
  | responded (status : Int) (body : String)
deriving Repr, DecidableEq

/-- The body of `DoDSBIRClient._request` (lines 18-41): performs the call, applies
`resp.raise_for_status()` (error for any non-2xx status), and converts
every raised httpx exception through the `except` chain. -/
def DoDSBIRClient.request (url : String) (attempt : HttpAttempt) :
    Except DoDSBIRAPIError (Int × String) :=
  match attempt with
  | .timedOut m => .error (handleRequestException url (.timeoutExc m))
  | .transportFailed m => .error (handleRequestException url (.transportExc m))
  | .responded s body =>
      if 200 ≤ s ∧ s < 300 then .ok (s, body)
      else .error (handleRequestException url (.statusExc url s body))

/-- The endpoints' public-status rule (topics.py lines 39 and 174):
`status_code = e.status_code if e.status_code else 502`.  Python
truthiness: `None` and `0` both fall back to 502 Bad Gateway. -/
def publicStatusOf (e : DoDSBIRAPIError) : Int :=
  match e.status_code with
  | some n => if n ≠ 0 then n else 502
  | none => 502

/-! ## Search (`DoDSBIRClient.search_topics`, dod_sbir_client.py lines 44-72) -/

/-- A `releaseNumber` value in the upstream JSON: the upstream sends it
either as a number or as a string (see the `field_validator` on
`Topic.releaseNumber`). -/
inductive ReleaseNumberJson where
  | int (n : Int)
  | str (s : String)
deriving Repr, DecidableEq

/-- One element of the upstream response's `data` array: a loose
JSON object in which any field may be missing. -/
structure TopicJson where
  topicCode : Option String
  topicTitle : Option String
  component : Option String
  topicStatus : Option String
  solicitationTitle : Option String
  topicId : Option String
  programYear : Option Int
  releaseNumber : Option ReleaseNumberJson
  technologyArea : Option String
  keywords : Option (List String)
deriving Repr, DecidableEq

/-- The `convert_release_number_to_string` validator (schemas.py lines
19-24): `None` stays `None`, anything else becomes `str(v)`. -/
def convert_release_number_to_string : Option ReleaseNumberJson → Option String
  | none => none
  | some (.int n) => some (toString n)
  | some (.str s) => some s

/-- Pydantic validation `Topic.model_validate` of of one upstream topic
object.  All six required string fields must be present, otherwise a
`ValidationError` is raised; `keywords` defaults to the empty list. -/
def Topic.model_validate (j : TopicJson) : Except String Topic :=
  match j.topicCode, j.topicTitle, j.component, j.topicStatus,
      j.solicitationTitle, j.topicId with
  | some tc, some tt, some comp, some ts, some st, some tid =>
      .ok ⟨tc, tt, comp, ts, st, tid, j.programYear,
        convert_release_number_to_string j.releaseNumber,
        j.technologyArea, j.keywords.getD []⟩
  | _, _, _, _, _, _ =>
      .error "ValidationError: missing required topic field"

/-- The list comprehension validating every entry of the data array
(`[Topic.model_validate(topic) for topic in topics_data]`): validates
in order and raises on the first failure. -/
def validateTopics : List TopicJson → Except String (List Topic)
  | [] => .ok []
  | j :: rest =>
      match Topic.model_validate j with
      | .error e => .error e
      | .ok t =>
          match validateTopics rest with
          | .error e => .error e
          | .ok ts => .ok (t :: ts)

/-- A successfully parsed JSON body of the upstream search response:
`data` (array of topic objects) and `total` (int), either of which may
be absent. -/
structure UpstreamSearchBody where
  data : Option (List TopicJson)
  total : Option Int
deriving Repr, DecidableEq

/-- The tail of `DoDSBIRClient.search_topics`, lines 64-72, from the parsed response
body onward: `topics_data = result.get("data", [])`,
`total_elements = result.get("total", 0)`,
`has_more = (page + 1) * page_size < total_elements`, then per-topic
pydantic validation (which may raise). -/
def search_topics (req : SearchRequest) (body : UpstreamSearchBody) :
    Except String (List Topic × Int × Bool) :=
  let topics_data := body.data.getD []
  let total_elements := body.total.getD 0
  let has_more := decide ((req.page + 1) * req.page_size < total_elements)
  match validateTopics topics_data with
  | .error e => .error e
  | .ok topics => .ok (topics, total_elements, has_more)

/-! ## Download endpoint (`download_pdfs_endpoint`, topics.py lines 67-186) -/

/-- An exception raised by a Gateway call as the endpoint code sees it:
either the typed `DoDSBIRAPIError` or any other (unexpected) exception,
carried with its message. -/
inductive GatewayFailure where
  | api (e : DoDSBIRAPIError)
  | unexpected (msg : String)
deriving Repr, DecidableEq

/-- Oracle for `client.download_pdf_content(topic_id)`: what fetching
the document for a given topic id returns or raises. -/
abbrev FetchOracle := String → Except GatewayFailure Bytes

/-- Oracle for `client.search_topics(request)`: the `(topics, total,
has_more)` triple it returns, or the exception it raises. -/
abbrev SearchOracle := SearchRequest → Except GatewayFailure (List Topic × Int × Bool)

/-- The content of one zip entry: `zf.writestr` is called either with
raw PDF bytes or with a placeholder text. -/
inductive EntryContent where
  | bin (b : Bytes)
  | text (s : String)
deriving Repr, DecidableEq

/-- The observable result of the download endpoint: a direct PDF
response with its content-disposition filename, a zip archive response
with its filename and ordered entries, or an `HTTPException` carrying a
public status, a machine-readable code and a human-readable detail. -/
inductive Outcome where
  | pdfFile (filename : String) (content : Bytes)
  | zipArchive (filename : String) (entries : List (String × EntryContent))
  | httpError (status : Int) (code : String) (detail : String)
deriving Repr, DecidableEq

/-- The dict comprehension at topics.py line 94:
`topic_map = {topic.topicCode: topic.topicId for topic in all_found_topics}`.
Later entries overwrite earlier ones; lookup is `topic_map.get(code)`. -/
def buildTopicMap (topics : List Topic) : String → Option String :=
  topics.foldl (fun m t => fun c => if t.topicCode = c then some t.topicId else m c)
    (fun _ => none)

/-- The resolution loop at topics.py lines 96-104: for each requested
code, `topic_id = topic_map.get(code)`; `if topic_id:` appends to
`topics_to_download`, else to `not_found_codes`.  Note the Python
truthiness test: a present but empty topic id counts as not found.
The loop fills both lists in encounter order, which this structural
recursion preserves. -/
def resolveCodes (topic_map : String → Option String) :
    List String → List (String × String) × List String
  | [] => ([], [])
  | code :: rest =>
      let r := resolveCodes topic_map rest
      match topic_map code with
      | some topic_id =>
          if topic_id = "" then (r.1, code :: r.2)
          else ((code, topic_id) :: r.1, r.2)
      | none => (r.1, code :: r.2)

/-- The placeholder entry written into the zip when one item's fetch
raises (topics.py lines 144-154): `ERROR_<code>.txt` with a text that
distinguishes a `DoDSBIRAPIError` from an unexpected exception. -/
def fetchErrorEntry (code : String) (f : GatewayFailure) : String × EntryContent :=
  match f with
  | .api e =>
      ("ERROR_" ++ code ++ ".txt",
        .text ("Failed to download PDF for topic " ++ code ++ ".\nError: " ++ e.message))
  | .unexpected m =>
      ("ERROR_" ++ code ++ ".txt",
        .text ("Unexpected error downloading PDF for topic " ++ code ++ ".\nError: " ++ m))

/-- The multi-item zip loop (topics.py lines 139-154): one entry per
resolved pair, in order — the PDF bytes under `<code>.pdf` on success,
the placeholder entry on failure; a failure never aborts the loop. -/
def buildZipEntries (fetch : FetchOracle) (pairs : List (String × String)) :
    List (String × EntryContent) :=
  pairs.map fun p =>
    match fetch p.2 with
    | .ok pdf_content => (p.1 ++ ".pdf", .bin pdf_content)
    | .error f => fetchErrorEntry p.1 f

/-- Dispatch on the resolved pairs (topics.py lines 128-171): exactly
one pair → fetch and return the PDF directly, any raised exception
propagating to the endpoint's outer handlers (lines 173-186); otherwise
build the zip, then `if not zf.namelist():` raise ALL_DOWNLOADS_FAILED,
else return the archive. -/
def processResolved (fetch : FetchOracle) (topics_to_download : List (String × String)) :
    Outcome :=
  match topics_to_download with
  | [(code, topic_id)] =>
      match fetch topic_id with
      | .ok pdf_content => .pdfFile (code ++ ".pdf") pdf_content
      | .error (.api e) =>
          .httpError (publicStatusOf e) "DOD_API_DOWNLOAD_ERROR" e.message
      | .error (.unexpected m) =>
          .httpError 500 "DOWNLOAD_ERROR"
            ("An unexpected error occurred during download: " ++ m)
  | _ =>
      let entries := buildZipEntries fetch topics_to_download
      if entries.map Prod.fst = [] then
        .httpError 500 "ALL_DOWNLOADS_FAILED"
          "All selected PDF downloads failed. Check individual error logs if available."
      else
        .zipArchive "selected_pdfs.zip" entries

/-- topics.py lines 94-171, given the topic list returned by the
resolution search: build the lookup table, partition the requested
codes, raise 404 when nothing resolved (TOPIC_NOT_FOUND when some codes
were missing, the NO_TOPICS_FOR_DOWNLOAD safeguard otherwise), then
dispatch on the resolved pairs. -/
def downloadCore (all_found_topics : List Topic) (codes : List String)
    (fetch : FetchOracle) : Outcome :=
  let topic_map := buildTopicMap all_found_topics
  let r := resolveCodes topic_map codes
  let topics_to_download := r.1
  let not_found_codes := r.2
  if not_found_codes ≠ [] ∧ topics_to_download = [] then
    .httpError 404 "TOPIC_NOT_FOUND"
      ("None of the requested topic codes found with the given search parameters: " ++
        String.intercalate ", " not_found_codes)
  else if topics_to_download = [] then
    .httpError 404 "NO_TOPICS_FOR_DOWNLOAD" "No valid topics found for download."
  else
    processResolved fetch topics_to_download

/-- The JSON endpoint `download_pdfs_endpoint` (topics.py lines 67-186).  Line 76 builds
`search_req_for_ids` from the request's own page and page size (unused
afterwards); line 91 builds the resolution search request with
`page=0, page_size=1000`.  Each construction runs pydantic validation;
a `ValidationError` is caught by the endpoint's generic `except
Exception` handler (lines 181-186) and becomes a 500 DOWNLOAD_ERROR.
A `DoDSBIRAPIError` raised by the search maps to lines 173-178. -/
def download_pdfs_endpoint (search : SearchOracle) (fetch : FetchOracle)
    (request : DownloadRequest) : Outcome :=
  match mkSearchRequest request.search_term request.page request.page_size none none with
  | .error ve =>
      .httpError 500 "DOWNLOAD_ERROR"
        ("An unexpected error occurred during download: " ++ ve)
  | .ok _search_req_for_ids =>
      match mkSearchRequest request.search_term 0 1000 none none with
      | .error ve =>
          .httpError 500 "DOWNLOAD_ERROR"
            ("An unexpected error occurred during download: " ++ ve)
      | .ok resolution_req =>
          match search resolution_req with
          | .error (.api e) =>
              .httpError (publicStatusOf e) "DOD_API_DOWNLOAD_ERROR" e.message
          | .error (.unexpected m) =>
              .httpError 500 "DOWNLOAD_ERROR"
                ("An unexpected error occurred during download: " ++ m)
          | .ok (all_found_topics, _, _) =>
              downloadCore all_found_topics request.selected_topics fetch

/-! ## Form-post download endpoint (`download_selected_pdfs`, src/main.py lines 137-189) -/

/-- One topic dict as used by `src/main.py`: the endpoint reads
the topicCode key directly (assumed present) and uses `.get` for the
topicId key (tolerating absence). -/
structure FormTopic where
  topicCode : String
  topicId : Option String
deriving Repr, DecidableEq

/-- The dict comprehension at main.py line 146 mapping each topic
dict under its topicCode key: code to whole dict, later entries overwriting earlier ones. -/
def formBuildTopicMap (topics : List FormTopic) : String → Option FormTopic :=
  topics.foldl (fun m t => fun c => if t.topicCode = c then some t else m c)
    (fun _ => none)

/-- The url built by `PDF_API_TEMPLATE.format` (main.py line 22). -/
def PDF_API_TEMPLATE.format (topic_uid : String) : String :=
  "https://www.dodsbirsttr.mil/topics/api/public/topics/" ++ topic_uid ++ "/download/PDF"

/-- Python `str.format` of a possibly-`None` value: `None` renders as
the string `"None"`.  main.py never checks `uid` for `None` before
formatting it into the PDF url. -/
def pyStr : Option String → String
  | some s => s
  | none => "None"

/-- Oracle for the `query_api(term, page, page_size)` helper of main.py: the
`(topics, total, has_more, total_pages)` tuple, or the exception text. -/
abbrev QueryApiOracle := String → Int → Int → Except String (List FormTopic × Int × Bool × Int)

/-- Oracle for a raw `client.get(pdf_url)` followed by
`raise_for_status()` in main.py: content bytes, or the raised
exception's text. -/
abbrev HttpGetOracle := String → Except String Bytes

/-- The observable result of the form endpoint: a direct PDF response,
a zip archive response, an inline HTML error page (modelled by its
message text, the HTML wrapper elided), or an exception escaping the
endpoint unhandled (the single-item fetch path has no try/except). -/
inductive FormOutcome where
  | pdfFile (filename : String) (content : Bytes)
  | zipArchive (filename : String) (entries : List (String × EntryContent))
  | htmlError (msg : String)
  | unhandledError (msg : String)
deriving Repr, DecidableEq

/-- The form endpoint `download_selected_pdfs` (src/main.py lines 137-189): resolve via
`query_api(term, page, 10)` — the original page with page size 10 —
then dispatch on `len(selected)`.  Single selected code: missing code →
HTML error page; fetch failure → exception escapes the endpoint.
Multiple codes: unresolved codes and failed fetches are skipped with no
placeholder entry, and the archive is returned even when empty. -/
def download_selected_pdfs (query_api : QueryApiOracle) (http_get : HttpGetOracle)
    (term : String) (page : Int) (selected : List String) : FormOutcome :=
  match query_api term page 10 with
  | .error e => .htmlError ("Error fetching topic list for download: " ++ e)
  | .ok (topics, _, _, _) =>
      let topic_map := formBuildTopicMap topics
      match selected with
      | [code] =>
          match topic_map code with
          | none => .htmlError ("Topic code " ++ code ++ " not found.")
          | some topic =>
              let uid := topic.topicId
              let pdf_url := PDF_API_TEMPLATE.format (pyStr uid)
              match http_get pdf_url with
              | .error e => .unhandledError e
              | .ok content => .pdfFile (code ++ ".pdf") content
      | _ =>
          let entries := selected.foldl
            (fun acc code =>
              match topic_map code with
              | none => acc
              | some topic =>
                  let pdf_url := PDF_API_TEMPLATE.format (pyStr topic.topicId)
                  match http_get pdf_url with
                  | .ok content => acc ++ [(code ++ ".pdf", EntryContent.bin content)]
                  | .error _ => acc)
            []
          .zipArchive "selected_pdfs.zip" entries

/-- A transport-independent view of a download result, used to compare
the JSON endpoint and the form endpoint: the served file or archive, or
the fact that the request failed. -/
inductive ResultShape where
  | file (name : String) (content : Bytes)
  | archive (entries : List (String × EntryContent))
  | failure
deriving Repr, DecidableEq

/-- Shape of a JSON-endpoint outcome. -/
def Outcome.shape : Outcome → ResultShape
  | .pdfFile n b => .file n b
  | .zipArchive _ es => .archive es
  | .httpError _ _ _ => .failure

/-- Shape of a form-endpoint outcome. -/
def FormOutcome.shape : FormOutcome → ResultShape
  | .pdfFile n b => .file n b
  | .zipArchive _ es => .archive es
  | .htmlError _ => .failure
  | .unhandledError _ => .failure

/-! ## Observation helpers over outcomes -/

/-- Whether the fetch oracle fails on a resolved pair's topic id. -/
def fetchFails (fetch : FetchOracle) (p : String × String) : Bool :=
  match fetch p.2 with
  | .ok _ => false
  | .error _ => true

/-- A zip entry holding document bytes. -/
def isDocEntry (e : String × EntryContent) : Bool :=
  match e.2 with
  | .bin _ => true
  | .text _ => false

/-- A zip entry holding placeholder text. -/
def isPlaceholderEntry (e : String × EntryContent) : Bool :=
  match e.2 with
  | .text _ => true
  | .bin _ => false

/-! ## Concrete sample inputs used by witnesses and counterexamples -/

/-- A sample topic with code `A` and id `id1`. -/
def topicA : Topic := ⟨"A", "Title A", "ARMY", "Open", "Sol 24.1", "id1", none, none, none, []⟩

/-- A sample topic with code `B` and id `id2`. -/
def topicB : Topic := ⟨"B", "Title B", "NAVY", "Open", "Sol 24.1", "id2", none, none, none, []⟩

/-- A sample topic with code `C` and id `id3`. -/
def topicC : Topic := ⟨"C", "Title C", "DARPA", "Open", "Sol 24.1", "id3", none, none, none, []⟩

/-- A second topic sharing code `A`, with a different id `id9`. -/
def topicA2 : Topic := ⟨"A", "Title A cycle 2", "ARMY", "Open", "Sol 24.2", "id9", none, none, none, []⟩

/-- An upstream topic object with every required field present. -/
def tjGood : TopicJson :=
  ⟨some "A", some "Title A", some "ARMY", some "Open", some "Sol 24.1", some "id1",
    none, none, none, none⟩

/-- The `Topic` that `tjGood` validates to. -/
def topicGood : Topic := ⟨"A", "Title A", "ARMY", "Open", "Sol 24.1", "id1", none, none, none, []⟩

/-- An upstream topic object with every field missing: pydantic
validation of it raises. -/
def tjBad : TopicJson := ⟨none, none, none, none, none, none, none, none, none, none⟩

/-- A valid sample search request: no term, page 0, page size 10. -/
def reqSample : SearchRequest := ⟨none, 0, 10, none, none⟩

/-- An upstream body with one well-formed topic but no `total` key. -/
def bodyNoTotal : UpstreamSearchBody := ⟨some [tjGood], none⟩

/-- An upstream body with one malformed topic and no `total` key. -/
def bodyBadTopic : UpstreamSearchBody := ⟨some [tjBad], none⟩

/-- An upstream body with neither `data` nor `total`. -/
def bodyEmpty : UpstreamSearchBody := ⟨none, none⟩

/-- An upstream body whose reported total (5) is consistent with its
single data entry. -/
def bodyConsistent : UpstreamSearchBody := ⟨some [tjGood], some 5⟩

/-- A fetch oracle on which every document fetch raises a
`DoDSBIRAPIError`. -/
def failFetch : FetchOracle := fun _ => .error (.api ⟨"boom", none⟩)

/-- A fetch oracle on which every document fetch succeeds. -/
def okFetch : FetchOracle := fun _ => .ok [1, 2, 3]

/-- A fetch oracle failing exactly on topic id `id2`. -/
def mixedFetch : FetchOracle := fun topic_id =>
  if topic_id = "id2" then .error (.api ⟨"down", none⟩) else .ok [7]

/-- A search oracle whose upstream has no topics at all. -/
def searchEmptyOracle : SearchOracle := fun _ => .ok ([], 0, false)

/-- A `query_api` oracle whose upstream has no topics at all. -/
def queryEmptyOracle : QueryApiOracle := fun _ _ _ => .ok ([], 0, false, 1)

/-- An HTTP GET oracle on which every document url succeeds. -/
def httpOkOracle : HttpGetOracle := fun _ => .ok [9]

/-- A sample download request selecting codes `A` and `B`. -/
def dreqAB : DownloadRequest := ⟨["A", "B"], some "t", 0, 10⟩

/-- The form-endpoint topic dict for code `A` with id `id1`. -/
def ftopicA : FormTopic := ⟨"A", some "id1"⟩

/-- A `query_api` oracle whose upstream holds exactly `ftopicA`. -/
def queryOneOracle : QueryApiOracle := fun _ _ _ => .ok ([ftopicA], 0, false, 1)

/-- An HTTP GET oracle on which every document url yields `[1, 2, 3]`. -/
def httpOk3 : HttpGetOracle := fun _ => .ok [1, 2, 3]

/-! ## Helper lemmas -/

theorem buildTopicMap_concat (ts : List Topic) (t : Topic) (c : String) :
    buildTopicMap (ts ++ [t]) c =
      if t.topicCode = c then some t.topicId else buildTopicMap ts c := by
  simp [buildTopicMap, List.foldl_append]

theorem buildTopicMap_eq_filter_getLast (ts : List Topic) (c : String) :
    buildTopicMap ts c =
      ((ts.filter fun t => decide (t.topicCode = c)).getLast?).map Topic.topicId := by
  induction ts using List.reverseRecOn with
  | nil => rfl
  | append_singleton ts t ih =>
      rw [buildTopicMap_concat]
      by_cases h : t.topicCode = c
      · simp [h, List.filter_append, List.getLast?_concat]
      · simp [h, List.filter_append, ih]

theorem buildTopicMap_mem {ts : List Topic} {c tid : String}
    (h : buildTopicMap ts c = some tid) :
    ∃ t ∈ ts, t.topicCode = c ∧ t.topicId = tid := by
  rw [buildTopicMap_eq_filter_getLast] at h
  rcases hl : (ts.filter fun t => decide (t.topicCode = c)).getLast? with _ | t
  · rw [hl] at h; simp at h
  · rw [hl] at h
    simp only [Option.map_some'] at h
    have ht := List.mem_of_getLast?_eq_some hl
    have := List.mem_filter.mp ht
    exact ⟨t, this.1, by simpa using this.2, by simpa using h⟩

theorem resolveCodes_all_unresolved {tmap : String → Option String} :
    ∀ {codes : List String}, (∀ c ∈ codes, tmap c = none) →
      resolveCodes tmap codes = ([], codes) := by
  intro codes
  induction codes with
  | nil => intro _; rfl
  | cons c rest ih =>
      intro h
      have hc : tmap c = none := h c (List.mem_cons_self c rest)
      have hr := ih fun x hx => h x (List.mem_cons_of_mem c hx)
      simp [resolveCodes, hc, hr]

theorem resolveCodes_resolved_ne_nil {tmap : String → Option String}
    {codes : List String} {c tid : String}
    (hc : c ∈ codes) (ht : tmap c = some tid) (hne : tid ≠ "") :
    (resolveCodes tmap codes).1 ≠ [] := by
  induction codes with
  | nil => cases hc
  | cons x rest ih =>
      rcases List.mem_cons.mp hc with h | h
      · subst h
        simp [resolveCodes, ht, hne]
      · rcases hx : tmap x with _ | tid'
        · simpa [resolveCodes, hx] using ih h
        · by_cases h0 : tid' = ""
          · simpa [resolveCodes, hx, h0] using ih h
          · simp [resolveCodes, hx, h0]

theorem processResolved_error_code {fetch : FetchOracle}
    {toDl : List (String × String)} {s : Int} {ec d : String}
    (h : processResolved fetch toDl = .httpError s ec d) :
    ec = "DOD_API_DOWNLOAD_ERROR" ∨ ec = "DOWNLOAD_ERROR" ∨ ec = "ALL_DOWNLOADS_FAILED" := by
  rcases toDl with _ | ⟨⟨code, tid⟩, _ | ⟨q, rest⟩⟩
  · simp [processResolved, buildZipEntries] at h
    exact Or.inr (Or.inr h.2.1.symm)
  · rcases hf : fetch tid with f | b
    · rcases f with e | m
      · simp [processResolved, hf] at h
        exact Or.inl h.2.1.symm
      · simp [processResolved, hf] at h
        exact Or.inr (Or.inl h.2.1.symm)
    · simp [processResolved, hf] at h
  · simp only [processResolved] at h
    have hz : (buildZipEntries fetch ((code, tid) :: q :: rest)).map Prod.fst ≠ [] := by
      simp [buildZipEntries]
    rw [if_neg hz] at h
    cases h

theorem validateTopics_length : ∀ {l : List TopicJson} {ts : List Topic},
    validateTopics l = .ok ts → ts.length = l.length := by
  intro l
  induction l with
  | nil => intro ts h; cases h; rfl
  | cons j rest ih =>
      intro ts h
      rcases hj : Topic.model_validate j with e | t
      · rw [validateTopics, hj] at h; cases h
      · rcases hr : validateTopics rest with e | ts' <;> rw [validateTopics, hj, hr] at h
        · cases h
        · cases h; simp [ih hr]

theorem isDocEntry_bin (n : String) (b : Bytes) : isDocEntry (n, .bin b) = true := rfl

theorem isPlaceholderEntry_bin (n : String) (b : Bytes) :
    isPlaceholderEntry (n, .bin b) = false := rfl

theorem isDocEntry_fetchErrorEntry (c : String) (f : GatewayFailure) :
    isDocEntry (fetchErrorEntry c f) = false := by
  cases f <;> rfl

theorem isPlaceholderEntry_fetchErrorEntry (c : String) (f : GatewayFailure) :
    isPlaceholderEntry (fetchErrorEntry c f) = true := by
  cases f <;> rfl

theorem fetchErrorEntry_fst (c : String) (f : GatewayFailure) :
    (fetchErrorEntry c f).1 = "ERROR_" ++ c ++ ".txt" := by
  cases f <;> rfl

theorem processResolved_multi (fetch : FetchOracle) (p q : String × String)
    (rest : List (String × String)) :
    processResolved fetch (p :: q :: rest) =
      Outcome.zipArchive "selected_pdfs.zip" (buildZipEntries fetch (p :: q :: rest)) := by
  have hz : (buildZipEntries fetch (p :: q :: rest)).map Prod.fst ≠ [] := by
    simp [buildZipEntries]
  simp only [processResolved]
  rw [if_neg hz]

theorem buildZipEntries_mem_characterization (fetch : FetchOracle)
    (pairs : List (String × String)) :
    ∀ e ∈ buildZipEntries fetch pairs,
      (∃ p ∈ pairs, ∃ b, fetch p.2 = Except.ok b ∧ e = (p.1 ++ ".pdf", EntryContent.bin b)) ∨
      (∃ p ∈ pairs, ∃ f, fetch p.2 = Except.error f ∧ e = fetchErrorEntry p.1 f ∧
        e.1 = "ERROR_" ++ p.1 ++ ".txt") := by
  intro e he
  obtain ⟨p, hp, hpe⟩ := List.mem_map.mp he
  rcases hf : fetch p.2 with f | b
  · right
    rw [hf] at hpe
    simp only at hpe
    exact ⟨p, hp, f, hf, hpe.symm, by rw [← hpe, fetchErrorEntry_fst]⟩
  · left
    rw [hf] at hpe
    simp only at hpe
    exact ⟨p, hp, b, hf, hpe.symm⟩

theorem downloadCore_single (topics : List Topic) (codes : List String)
    (fetch : FetchOracle) (code tid : String)
    (hres : (resolveCodes (buildTopicMap topics) codes).1 = [(code, tid)]) :
    downloadCore topics codes fetch = processResolved fetch [(code, tid)] := by
  simp only [downloadCore]
  rw [hres]
  rw [if_neg (fun hand => List.cons_ne_nil _ _ hand.2), if_neg (List.cons_ne_nil _ _)]

theorem mkSearchRequest_pageSize_1000 (term : Option String)
    (components : Option (List String)) (program_years : Option (List Int)) :
    mkSearchRequest term 0 1000 components program_years =
      .error "ValidationError: page_size must be less than or equal to 100" := by
  simp [mkSearchRequest]

/-! ## Claim theorems -/

/-- Claim C1.  The claim states that a multi-item batch in which every
per-item document fetch fails yields the fatal ALL_DOWNLOADS_FAILED
error rather than an archive of error placeholders.  The code does the
opposite: because each failed item writes an `ERROR_<code>.txt` entry
into the zip, `zf.namelist()` is never empty and the
ALL_DOWNLOADS_FAILED branch is unreachable.  Evaluated at a batch of
two resolved pairs whose fetches both fail, the endpoint core returns a
200 archive containing only the two placeholder entries, and returns
the fatal aggregate error for no detail string. -/
theorem c1_all_failed_batch_returns_placeholder_archive :
    downloadCore [topicA, topicB] ["A", "B"] failFetch =
      Outcome.zipArchive "selected_pdfs.zip"
        [("ERROR_A.txt", .text "Failed to download PDF for topic A.\nError: boom"),
         ("ERROR_B.txt", .text "Failed to download PDF for topic B.\nError: boom")] ∧
    ∀ d, downloadCore [topicA, topicB] ["A", "B"] failFetch ≠
      Outcome.httpError 500 "ALL_DOWNLOADS_FAILED" d := by
  refine ⟨by decide, ?_⟩
  intro d h
  rw [show downloadCore [topicA, topicB] ["A", "B"] failFetch =
      Outcome.zipArchive "selected_pdfs.zip"
        [("ERROR_A.txt", .text "Failed to download PDF for topic A.\nError: boom"),
         ("ERROR_B.txt", .text "Failed to download PDF for topic B.\nError: boom")]
    from by decide] at h
  cases h

/-- Claim C2.  The claim states that the resolver's code-to-id lookup
search (original term, page 0, page size 1000) is a valid SearchQuery
under the 1-100 page-size bound and succeeds without a validation
error.  In the code, `SearchRequest(term=..., page=0, page_size=1000)`
violates the schema's `le=100` bound, so pydantic raises at
construction, the generic handler catches it, and every call of the
endpoint returns 500 DOWNLOAD_ERROR — regardless of the gateway's
behavior and of the request. -/
theorem c2_resolution_search_always_fails_validation
    (search : SearchOracle) (fetch : FetchOracle) (request : DownloadRequest) :
    ∃ detail, download_pdfs_endpoint search fetch request =
      Outcome.httpError 500 "DOWNLOAD_ERROR" detail := by
  unfold download_pdfs_endpoint
  rcases h : mkSearchRequest request.search_term request.page request.page_size none none
    with ve | sreq
  · exact ⟨_, rfl⟩
  · rw [mkSearchRequest_pageSize_1000]
    exact ⟨_, rfl⟩

/-- Claim C5.  Gateway call failures are classified in the source order
of the `except` chain: timeout first (even though a timeout is also an
`httpx.RequestError` by subclassing), then transport-level failure,
then non-2xx status — all as the single `DoDSBIRAPIError` kind whose
optional status code is populated only in the status case, where the
message also embeds the first 200 characters of the response body.
The caller's public status forwards the carried status code when
present and falls back to 502 otherwise. -/
theorem c5_gateway_failure_classification (url m body : String) (s : Int)
    (hs : ¬(200 ≤ s ∧ s < 300)) (hs0 : s ≠ 0) :
    DoDSBIRClient.request url (.timedOut m) =
      .error ⟨"Request to " ++ url ++ " timed out.", none⟩ ∧
    HttpxException.isRequestError (.timeoutExc m) = true ∧
    DoDSBIRClient.request url (.transportFailed m) =
      .error ⟨"Network error requesting " ++ url ++ ": " ++ m, none⟩ ∧
    DoDSBIRClient.request url (.responded s body) =
      .error ⟨"API request to " ++ url ++ " failed with status " ++ toString s ++
        ". Response: " ++ body.take 200 ++ "...", some s⟩ ∧
    publicStatusOf ⟨"Request to " ++ url ++ " timed out.", none⟩ = 502 ∧
    publicStatusOf ⟨"any gateway error message", some s⟩ = s := by
  refine ⟨rfl, rfl, rfl, ?_, rfl, ?_⟩
  · simp only [DoDSBIRClient.request, if_neg hs]
    rfl
  · simp [publicStatusOf, hs0]

/-- Witness for C5 at a concrete 404 response. -/
theorem c5_witness :
    DoDSBIRClient.request "https://u" (.timedOut "t") =
      .error ⟨"Request to " ++ "https://u" ++ " timed out.", none⟩ ∧
    HttpxException.isRequestError (.timeoutExc "t") = true ∧
    DoDSBIRClient.request "https://u" (.transportFailed "t") =
      .error ⟨"Network error requesting " ++ "https://u" ++ ": " ++ "t", none⟩ ∧
    DoDSBIRClient.request "https://u" (.responded 404 "nope") =
      .error ⟨"API request to " ++ "https://u" ++ " failed with status " ++ toString (404 : Int) ++
        ". Response: " ++ String.take "nope" 200 ++ "...", some 404⟩ ∧
    publicStatusOf ⟨"Request to " ++ "https://u" ++ " timed out.", none⟩ = 502 ∧
    publicStatusOf ⟨"any gateway error message", some 404⟩ = 404 :=
  c5_gateway_failure_classification "https://u" "t" "nope" 404 (by decide) (by decide)

/-- Claim C3.  Under the gateway invariant that returned topics carry a
non-empty `topicId`: when no requested code is present in the lookup
table, the operation fails 404 TOPIC_NOT_FOUND and the fetch oracle is
never consulted (the result is the same for every fetch oracle); when
at least one code resolves, the operation proceeds and never produces
either not-found error code. -/
theorem c3_resolution_failure_policy (topics : List Topic) (codes : List String)
    (fetch : FetchOracle) (hne : codes ≠ [])
    (hinv : ∀ t ∈ topics, t.topicId ≠ "") :
    ((∀ c ∈ codes, buildTopicMap topics c = none) →
      downloadCore topics codes fetch =
        Outcome.httpError 404 "TOPIC_NOT_FOUND"
          ("None of the requested topic codes found with the given search parameters: " ++
            String.intercalate ", " codes) ∧
      ∀ f g : FetchOracle, downloadCore topics codes f = downloadCore topics codes g) ∧
    ((∃ c ∈ codes, (buildTopicMap topics c).isSome) →
      ∀ s ec d, downloadCore topics codes fetch = Outcome.httpError s ec d →
        ec ≠ "TOPIC_NOT_FOUND" ∧ ec ≠ "NO_TOPICS_FOR_DOWNLOAD") := by
  constructor
  · intro hall
    have hr : resolveCodes (buildTopicMap topics) codes = ([], codes) :=
      resolveCodes_all_unresolved hall
    have key : ∀ f : FetchOracle, downloadCore topics codes f =
        Outcome.httpError 404 "TOPIC_NOT_FOUND"
          ("None of the requested topic codes found with the given search parameters: " ++
            String.intercalate ", " codes) := by
      intro f
      simp [downloadCore, hr, hne]
    exact ⟨key fetch, fun f g => (key f).trans (key g).symm⟩
  · rintro ⟨c, hc, hsome⟩ s ec d heq
    rcases ht : buildTopicMap topics c with _ | tid
    · rw [ht] at hsome; cases hsome
    · obtain ⟨t, htmem, _, hid⟩ := buildTopicMap_mem ht
      have htid : tid ≠ "" := hid ▸ hinv t htmem
      have hres : (resolveCodes (buildTopicMap topics) codes).1 ≠ [] :=
        resolveCodes_resolved_ne_nil hc ht htid
      have hcore : downloadCore topics codes fetch =
          processResolved fetch (resolveCodes (buildTopicMap topics) codes).1 := by
        simp only [downloadCore]
        rw [if_neg (fun hand => hres hand.2), if_neg hres]
      rw [hcore] at heq
      rcases processResolved_error_code heq with h | h | h <;> subst h <;>
        exact ⟨by decide, by decide⟩

/-- Witness for C3: requesting only code `B` against a lookup window
holding only code `A` yields the 404 TOPIC_NOT_FOUND outcome. -/
theorem c3_witness :
    downloadCore [topicA] ["B"] okFetch =
      Outcome.httpError 404 "TOPIC_NOT_FOUND"
        ("None of the requested topic codes found with the given search parameters: " ++
          String.intercalate ", " ["B"]) :=
  ((c3_resolution_failure_policy [topicA] ["B"] okFetch (by decide) (by decide)).1
    (by decide)).1

/-- Claim C6.  When resolution yields exactly one `(code, topicId)`
pair, a successful fetch returns exactly the gateway's raw bytes as a
direct PDF response named `<code>.pdf`, and a `DoDSBIRAPIError` on that
single fetch becomes the fatal error of the whole operation, its public
status forwarded from the upstream status code when present. -/
theorem c6_single_item_path (topics : List Topic) (codes : List String)
    (fetch : FetchOracle) (code tid : String)
    (hres : (resolveCodes (buildTopicMap topics) codes).1 = [(code, tid)]) :
    (∀ b : Bytes, fetch tid = .ok b →
      downloadCore topics codes fetch = Outcome.pdfFile (code ++ ".pdf") b) ∧
    (∀ e : DoDSBIRAPIError, fetch tid = .error (.api e) →
      downloadCore topics codes fetch =
        Outcome.httpError (publicStatusOf e) "DOD_API_DOWNLOAD_ERROR" e.message) := by
  have hcore := downloadCore_single topics codes fetch code tid hres
  constructor
  · intro b hb
    rw [hcore]
    simp [processResolved, hb]
  · intro e he
    rw [hcore]
    simp [processResolved, he]

/-- Witness for C6: one resolved pair whose fetch succeeds yields the
raw bytes under filename `A.pdf`. -/
theorem c6_witness :
    downloadCore [topicA] ["A"] okFetch = Outcome.pdfFile ("A" ++ ".pdf") [1, 2, 3] :=
  (c6_single_item_path [topicA] ["A"] okFetch "A" "id1" (by decide)).1 [1, 2, 3] rfl

/-- Claim C10.  The dict comprehension building the code-to-id table
lets later topics overwrite earlier ones: when the resolution search
returns several topics sharing a `topicCode`, the table maps that code
to the topicId of the last occurrence, and resolving that code hands
the last occurrence's id to the document fetch. -/
theorem c10_duplicate_codes_last_occurrence_wins (ts : List Topic) (c : String)
    (l : List Topic) (t : Topic)
    (hfilter : ts.filter (fun u => decide (u.topicCode = c)) = l ++ [t])
    (_hdup : l ≠ []) (hid : t.topicId ≠ "") :
    buildTopicMap ts c = some t.topicId ∧
    resolveCodes (buildTopicMap ts) [c] = ([(c, t.topicId)], []) := by
  have hmap : buildTopicMap ts c = some t.topicId := by
    rw [buildTopicMap_eq_filter_getLast, hfilter, List.getLast?_concat]
    rfl
  refine ⟨hmap, ?_⟩
  simp [resolveCodes, hmap, hid]

/-- Witness for C10: two topics with code `A` (ids `id1` then `id9`);
the lookup table maps `A` to `id9` and resolution pairs `A` with `id9`. -/
theorem c10_witness :
    buildTopicMap [topicA, topicA2] "A" = some topicA2.topicId ∧
    resolveCodes (buildTopicMap [topicA, topicA2]) ["A"] = ([("A", topicA2.topicId)], []) :=
  c10_duplicate_codes_last_occurrence_wins [topicA, topicA2] "A" [topicA] topicA2
    (by decide) (by decide) (by decide)

/-- Claim C4.  A batch of three resolved pairs on which exactly one
document fetch fails yields the archive (success), with exactly two
document entries and exactly one placeholder entry; every document
entry is named `<code>.pdf` with the raw fetched bytes and every
placeholder is named `ERROR_<code>.txt`; no failure aborts the batch. -/
theorem c4_three_pair_batch_one_failure (x y z : String × String) (fetch : FetchOracle)
    (hone : [x, y, z].countP (fetchFails fetch) = 1) :
    processResolved fetch [x, y, z] =
      Outcome.zipArchive "selected_pdfs.zip" (buildZipEntries fetch [x, y, z]) ∧
    (buildZipEntries fetch [x, y, z]).countP isDocEntry = 2 ∧
    (buildZipEntries fetch [x, y, z]).countP isPlaceholderEntry = 1 ∧
    ∀ e ∈ buildZipEntries fetch [x, y, z],
      (∃ p ∈ [x, y, z], ∃ b, fetch p.2 = Except.ok b ∧
        e = (p.1 ++ ".pdf", EntryContent.bin b)) ∨
      (∃ p ∈ [x, y, z], ∃ f, fetch p.2 = Except.error f ∧ e = fetchErrorEntry p.1 f ∧
        e.1 = "ERROR_" ++ p.1 ++ ".txt") := by
  obtain ⟨x1, x2⟩ := x
  obtain ⟨y1, y2⟩ := y
  obtain ⟨z1, z2⟩ := z
  have hcounts :
      (buildZipEntries fetch [(x1, x2), (y1, y2), (z1, z2)]).countP isDocEntry = 2 ∧
      (buildZipEntries fetch [(x1, x2), (y1, y2), (z1, z2)]).countP isPlaceholderEntry = 1 := by
    rcases hx : fetch x2 with f1 | b1 <;>
      rcases hy : fetch y2 with f2 | b2 <;>
      rcases hz : fetch z2 with f3 | b3 <;>
      simp only [List.countP_cons, List.countP_nil, fetchFails, hx, hy, hz] at hone <;>
      simp_all [buildZipEntries, List.countP_cons, List.countP_nil, isDocEntry_bin,
        isPlaceholderEntry_bin, isDocEntry_fetchErrorEntry, isPlaceholderEntry_fetchErrorEntry]
  exact ⟨processResolved_multi fetch (x1, x2) (y1, y2) [(z1, z2)], hcounts.1, hcounts.2,
    buildZipEntries_mem_characterization fetch [(x1, x2), (y1, y2), (z1, z2)]⟩

/-- Witness for C4: pairs for codes `A`, `B`, `C` where only the fetch
for `B` (id `id2`) fails. -/
theorem c4_witness :
    processResolved mixedFetch [("A", "id1"), ("B", "id2"), ("C", "id3")] =
      Outcome.zipArchive "selected_pdfs.zip"
        (buildZipEntries mixedFetch [("A", "id1"), ("B", "id2"), ("C", "id3")]) ∧
    (buildZipEntries mixedFetch [("A", "id1"), ("B", "id2"), ("C", "id3")]).countP
      isDocEntry = 2 ∧
    (buildZipEntries mixedFetch [("A", "id1"), ("B", "id2"), ("C", "id3")]).countP
      isPlaceholderEntry = 1 ∧
    ∀ e ∈ buildZipEntries mixedFetch [("A", "id1"), ("B", "id2"), ("C", "id3")],
      (∃ p ∈ [("A", "id1"), ("B", "id2"), ("C", "id3")], ∃ b,
        mixedFetch p.2 = Except.ok b ∧ e = (p.1 ++ ".pdf", EntryContent.bin b)) ∨
      (∃ p ∈ [("A", "id1"), ("B", "id2"), ("C", "id3")], ∃ f,
        mixedFetch p.2 = Except.error f ∧ e = fetchErrorEntry p.1 f ∧
        e.1 = "ERROR_" ++ p.1 ++ ".txt") :=
  c4_three_pair_batch_one_failure ("A", "id1") ("B", "id2") ("C", "id3") mixedFetch
    (by decide)

/-- Claim C7, counterexample.  The claim asserts `total >= |topics|`
for every upstream response; but `search_topics` passes the upstream
`total` through unchecked (defaulting to 0), so a response carrying one
well-formed topic and no `total` key returns total 0 with one topic. -/
theorem c7_counterexample :
    search_topics reqSample bodyNoTotal = .ok ([topicGood], 0, false) ∧
    ¬((0 : Int) ≥ ([topicGood].length : Int)) := by
  exact ⟨rfl, by decide⟩

/-- Claim C7, amended.  For every valid SearchQuery and successful
search, `has_more = ((page+1) * page_size < total)`; `total` is exactly
the upstream-reported total (default 0) and the topic count is exactly
the upstream data length, so `total >= |topics|` holds precisely when
the upstream reports a total at least as large as its data array. -/
theorem c7_amended_search_result_invariants (req : SearchRequest)
    (body : UpstreamSearchBody) (topics : List Topic) (total : Int) (hm : Bool)
    (_hvalid : 0 ≤ req.page ∧ 1 ≤ req.page_size ∧ req.page_size ≤ 100)
    (h : search_topics req body = .ok (topics, total, hm)) :
    hm = decide ((req.page + 1) * req.page_size < total) ∧
    total = body.total.getD 0 ∧
    topics.length = (body.data.getD []).length ∧
    (((body.data.getD []).length : Int) ≤ body.total.getD 0 →
      (topics.length : Int) ≤ total) := by
  simp only [search_topics] at h
  rcases hv : validateTopics (body.data.getD []) with e | ts <;> rw [hv] at h
  · cases h
  · simp only [Except.ok.injEq, Prod.mk.injEq] at h
    obtain ⟨h1, h2, h3⟩ := h
    subst h1
    subst h2
    subst h3
    refine ⟨rfl, rfl, validateTopics_length hv, ?_⟩
    intro hle
    rw [validateTopics_length hv]
    exact hle

/-- Witness for the amended C7 at a consistent upstream body. -/
theorem c7_witness :
    (false = decide ((reqSample.page + 1) * reqSample.page_size < 5)) ∧
    ((5 : Int) = bodyConsistent.total.getD 0) ∧
    ([topicGood].length = (bodyConsistent.data.getD []).length) ∧
    ((((bodyConsistent.data.getD []).length : Int) ≤ bodyConsistent.total.getD 0) →
      (([topicGood].length : Int) ≤ 5)) :=
  c7_amended_search_result_invariants reqSample bodyConsistent [topicGood] 5 false
    (by decide) rfl

/-- Claim C9, counterexample.  The claim asserts that a parsed body
lacking `data` or `total` never makes search fail; but a body lacking
`total` whose `data` holds a malformed topic object still fails
per-topic pydantic validation. -/
theorem c9_counterexample :
    search_topics reqSample bodyBadTopic =
      .error "ValidationError: missing required topic field" := rfl

/-- Claim C9, amended.  A body with no `data` key yields a successful
empty topic list (with `total` defaulted); a body with no `total` key
that parses successfully yields total 0 and `has_more = false` (for a
valid page and page size). -/
theorem c9_amended_missing_keys_default (req : SearchRequest) (body : UpstreamSearchBody) :
    (body.data = none →
      search_topics req body =
        .ok ([], body.total.getD 0,
          decide ((req.page + 1) * req.page_size < body.total.getD 0))) ∧
    (body.total = none → 0 ≤ req.page → 1 ≤ req.page_size →
      ∀ ts tot hm, search_topics req body = .ok (ts, tot, hm) →
        tot = 0 ∧ hm = false) := by
  constructor
  · intro hd
    simp [search_topics, hd, validateTopics]
  · intro ht hp hps ts tot hm h
    simp only [search_topics, ht, Option.getD_none] at h
    rcases hv : validateTopics (body.data.getD []) with e | ts' <;> rw [hv] at h
    · cases h
    · simp only [Except.ok.injEq, Prod.mk.injEq] at h
      obtain ⟨h1, h2, h3⟩ := h
      refine ⟨h2.symm, ?_⟩
      rw [← h3]
      have hnn : 0 ≤ (req.page + 1) * req.page_size :=
        mul_nonneg (by linarith) (by linarith)
      simp only [decide_eq_false_iff_not]
      linarith

/-- Witness for the amended C9 at a body with neither key. -/
theorem c9_witness :
    search_topics reqSample bodyEmpty =
      .ok ([], bodyEmpty.total.getD 0,
        decide ((reqSample.page + 1) * reqSample.page_size < bodyEmpty.total.getD 0)) ∧
    ((0 : Int) = 0 ∧ false = false) :=
  ⟨(c9_amended_missing_keys_default reqSample bodyEmpty).1 rfl,
   (c9_amended_missing_keys_default reqSample bodyEmpty).2 rfl (by decide) (by decide)
     [] 0 false rfl⟩

/-- Claim C8, counterexample.  On equal inputs (selected codes `A` and
`B`, term `t`, page 0, original page size 10) against the same upstream
behavior (a search returning no topics, fetches all succeeding), the
JSON endpoint fails (500, from the page-size-1000 validation error)
while the form endpoint returns an empty zip archive: the two transport
shapes do not produce equivalent outcomes. -/
theorem c8_counterexample :
    (download_pdfs_endpoint searchEmptyOracle okFetch dreqAB).shape =
      ResultShape.failure ∧
    (download_selected_pdfs queryEmptyOracle httpOkOracle "t" 0 ["A", "B"]).shape =
      ResultShape.archive [] ∧
    (download_pdfs_endpoint searchEmptyOracle okFetch dreqAB).shape ≠
      (download_selected_pdfs queryEmptyOracle httpOkOracle "t" 0 ["A", "B"]).shape := by
  exact ⟨rfl, rfl, by decide⟩

/-- Claim C8, amended.  The two endpoints share only the output framing
of the aggregation stage: when exactly one item is in play and its
document fetch succeeds with the same bytes, both serve those raw bytes
as a file named `<code>.pdf`.  Their resolution, dispatch and
error policies differ (see the counterexample). -/
theorem c8_amended_shared_single_item_framing
    (code tid : String) (b : Bytes) (topics : List Topic) (codes : List String)
    (fetch : FetchOracle)
    (hres : (resolveCodes (buildTopicMap topics) codes).1 = [(code, tid)])
    (hf : fetch tid = .ok b)
    (query_api : QueryApiOracle) (http_get : HttpGetOracle)
    (term : String) (page : Int) (ftopics : List FormTopic) (t : FormTopic)
    (hq : query_api term page 10 = .ok (ftopics, 0, false, 1))
    (hmap : formBuildTopicMap ftopics code = some t)
    (ht : t.topicId = some tid)
    (hg : http_get (PDF_API_TEMPLATE.format tid) = .ok b) :
    (downloadCore topics codes fetch).shape = ResultShape.file (code ++ ".pdf") b ∧
    (download_selected_pdfs query_api http_get term page [code]).shape =
      ResultShape.file (code ++ ".pdf") b := by
  constructor
  · rw [downloadCore_single topics codes fetch code tid hres]
    simp [processResolved, hf, Outcome.shape]
  · simp [download_selected_pdfs, hq, hmap, ht, pyStr, hg, FormOutcome.shape]

/-- Witness for the amended C8: code `A`, id `id1`, bytes `[1, 2, 3]`
served identically by both endpoints. -/
theorem c8_witness :
    (downloadCore [topicA] ["A"] okFetch).shape =
      ResultShape.file ("A" ++ ".pdf") [1, 2, 3] ∧
    (download_selected_pdfs queryOneOracle httpOk3 "t" 0 ["A"]).shape =
      ResultShape.file ("A" ++ ".pdf") [1, 2, 3] :=
  c8_amended_shared_single_item_framing "A" "id1" [1, 2, 3] [topicA] ["A"] okFetch
    (by decide) rfl queryOneOracle httpOk3 "t" 0 [ftopicA] ftopicA rfl (by decide)
    rfl rfl

end DodSbir
